import Mathlib

/-!
Verification of the `portgen` port-derivation program (src/main.rs).

The program parses a node name such as `rpc-asset-hub-polkadot-01` into a
`NodeConfig` (network, optional chain, role, instance) and derives a TCP port
from compiled-in tables.  All definitions below are shallow embeddings of the
Rust source: strings are `List Char`/`String`, `u8` is `Fin 256`, `u16`
arithmetic is `Nat` (with a separate wrapping variant used to show that no
overflow occurs), and fallible parsing returns an explicit outcome type with a
`panic` constructor marking exactly the points where the Rust code would panic
(out-of-bounds `Vec` indexing).
-/

namespace Portgen

/-- ASCII lowercasing of one character, the effect of Rust's
`str::to_lowercase` on the ASCII-only identifiers this program compares
against its tables. -/
def asciiToLower (c : Char) : Char :=
  if 65 ≤ c.toNat ∧ c.toNat ≤ 90 then Char.ofNat (c.toNat + 32) else c

/-- Lowercase a whole identifier (model of `s.to_lowercase()` on ASCII input). -/
def toLowerAscii (cs : List Char) : List Char :=
  cs.map asciiToLower

/-- Model of Rust `s.replace('-', "")`: remove every dash. -/
def removeDashes (cs : List Char) : List Char :=
  cs.filter (fun c => c ≠ '-')

/-- Model of Rust `s.replace(".yaml", "")`: delete every (left-to-right,
non-overlapping) occurrence of the five characters `.yaml`. -/
def replaceYaml : List Char → List Char
  | '.' :: 'y' :: 'a' :: 'm' :: 'l' :: rest => replaceYaml rest
  | c :: rest => c :: replaceYaml rest
  | [] => []

/-- Model of Rust `name.split(&['-', '.'][..])`: split on every dash or dot;
separators are not kept and empty tokens are produced for leading, trailing or
doubled separators, exactly as in Rust (an empty input yields one empty
token). -/
def splitDashDot : List Char → List (List Char)
  | [] => [[]]
  | c :: rest =>
    if c = '-' ∨ c = '.' then
      [] :: splitDashDot rest
    else
      match splitDashDot rest with
      | [] => [[c]]
      | t :: ts => (c :: t) :: ts

/-- Model of Rust `s.parse::<u8>()` as used on the instance token: an optional
leading `+`, then at least one ASCII digit, value at most 255; anything else
(empty string, other characters, overflow) is a parse error. -/
def parseU8 (cs : List Char) : Option (Fin 256) :=
  let ds := match cs with
    | '+' :: rest => rest
    | _ => cs
  if ds.isEmpty then none
  else if ds.all (fun c => c.isDigit) then
    let n := ds.foldl (fun a c => a * 10 + (c.toNat - 48)) 0
    if h : n < 256 then some ⟨n, h⟩ else none
  else none

/-- The `Network` enum of the source, including the shadow `…Custom`
variants. -/
inductive Network
  | Polkadot
  | PolkadotCustom
  | Kusama
  | KusamaCustom
  | Westend
  | Paseo
  | PaseoCustom
  deriving DecidableEq, Repr, Fintype

/-- The `Chain` enum of the source. -/
inductive Chain
  | Relay
  | AssetHub
  | BridgeHub
  | Collectives
  | People
  | Coretime
  | Moonbeam
  | Hyperbridge
  | Interlay
  | Acala
  | Kilt
  | Karura
  | Kintsugi
  | Gargantua
  | Encointer
  deriving DecidableEq, Repr, Fintype

/-- The `Role` enum of the source. -/
inductive Role
  | Boot
  | Val
  | Rpc
  deriving DecidableEq, Repr, Fintype

/-- The `NodeConfig` struct of the source; `inst` embeds the `instance: u8`
field. -/
structure NodeConfig where
  network : Network
  chain : Option Chain
  role : Role
  inst : Fin 256
  deriving DecidableEq, Repr

/-- `Network::base_port` from the source. -/
def Network.base_port : Network → Nat
  | .Polkadot => 31000
  | .PolkadotCustom => 35000
  | .Kusama => 32000
  | .KusamaCustom => 36000
  | .Westend => 33000
  | .Paseo => 34000
  | .PaseoCustom => 38000

/-- `Network::from_str` from the source: lowercase, then exact match against
the four user-selectable network names. -/
def Network.from_str (s : List Char) : Option Network :=
  let l := toLowerAscii s
  if l = "polkadot".data then some .Polkadot
  else if l = "kusama".data then some .Kusama
  else if l = "westend".data then some .Westend
  else if l = "paseo".data then some .Paseo
  else none

/-- `Network::is_custom_chain` from the source: the eight (network, chain)
pairs that count as custom chains. -/
def Network.is_custom_chain (n : Network) (c : Chain) : Bool :=
  match n, c with
  | .Polkadot, .Moonbeam => true
  | .Polkadot, .Hyperbridge => true
  | .Polkadot, .Interlay => true
  | .Polkadot, .Acala => true
  | .Polkadot, .Kilt => true
  | .Kusama, .Karura => true
  | .Kusama, .Kintsugi => true
  | .Paseo, .Gargantua => true
  | _, _ => false

/-- `Chain::get_offset` from the source: the custom-chain offset table when
the pair is a custom chain of the given network, the system-chain table
otherwise; both tables default to 0 for chains they do not list. -/
def Chain.get_offset (c : Chain) (network : Network) : Nat :=
  if network.is_custom_chain c then
    match c with
    | .Moonbeam => 0
    | .Hyperbridge => 100
    | .Interlay => 200
    | .Acala => 300
    | .Kilt => 400
    | .Karura => 300
    | .Kintsugi => 200
    | .Gargantua => 100
    | _ => 0
  else
    match c with
    | .Relay => 0
    | .AssetHub => 100
    | .BridgeHub => 200
    | .Collectives => 300
    | .People => 400
    | .Coretime => 500
    | .Encointer => 600
    | _ => 0

/-- `Chain::from_str` from the source: lowercase, remove dashes, then exact
match against the fifteen chain names. -/
def Chain.from_str (s : List Char) : Option Chain :=
  let l := removeDashes (toLowerAscii s)
  if l = "relay".data then some .Relay
  else if l = "assethub".data then some .AssetHub
  else if l = "bridgehub".data then some .BridgeHub
  else if l = "collectives".data then some .Collectives
  else if l = "people".data then some .People
  else if l = "coretime".data then some .Coretime
  else if l = "moonbeam".data then some .Moonbeam
  else if l = "hyperbridge".data then some .Hyperbridge
  else if l = "interlay".data then some .Interlay
  else if l = "acala".data then some .Acala
  else if l = "kilt".data then some .Kilt
  else if l = "karura".data then some .Karura
  else if l = "kintsugi".data then some .Kintsugi
  else if l = "gargantua".data then some .Gargantua
  else if l = "encointer".data then some .Encointer
  else none

/-- `Role::offset` from the source. -/
def Role.offset : Role → Nat
  | .Boot => 10
  | .Val => 20
  | .Rpc => 30

/-- `Role::from_str` from the source. -/
def Role.from_str (s : List Char) : Option Role :=
  let l := toLowerAscii s
  if l = "boot".data then some .Boot
  else if l = "val".data then some .Val
  else if l = "rpc".data then some .Rpc
  else none

/-- The `let base = match (&self.network, &self.chain) { … }` computation at
the top of `NodeConfig::generate_port`: when the chain is present and is a
custom chain of the network, the corresponding shadow network's base port is
used; otherwise the network's own base port. -/
def portBase (network : Network) (chain : Option Chain) : Nat :=
  match network, chain with
  | n, some c =>
    if n.is_custom_chain c then
      (match n with
        | .Polkadot => Network.PolkadotCustom
        | .Kusama => Network.KusamaCustom
        | .Paseo => Network.PaseoCustom
        | _ => n).base_port
    else n.base_port
  | n, none => n.base_port

/-- The `self.chain.map_or(0, |c| c.get_offset(&self.network))` term of
`NodeConfig::generate_port`. -/
def chainContribution (network : Network) (chain : Option Chain) : Nat :=
  match chain with
  | none => 0
  | some c => c.get_offset network

/-- `NodeConfig::generate_port` from the source, with `u16` arithmetic carried
out in `Nat` (the wrapping variant below is proved equal to it). -/
def NodeConfig.generate_port (cfg : NodeConfig) : Nat :=
  portBase cfg.network cfg.chain +
    chainContribution cfg.network cfg.chain +
    cfg.role.offset +
    cfg.inst.val

/-- `NodeConfig::generate_port` with every intermediate addition reduced
modulo 2^16, the wrapping `u16` semantics of the source's
`base + chain_offset + role_offset + u16::from(instance)`. -/
def NodeConfig.generate_port_u16 (cfg : NodeConfig) : Nat :=
  (((portBase cfg.network cfg.chain +
        chainContribution cfg.network cfg.chain) % 65536 +
      cfg.role.offset) % 65536 +
    cfg.inst.val) % 65536

/-- Outcome of `NodeConfig::from_name`: a parsed config, Rust's `None`, or a
panic (out-of-bounds indexing into the token vector). -/
inductive ParseOutcome
  | ok (cfg : NodeConfig)
  | err
  | panic
  deriving DecidableEq, Repr

/-- `NodeConfig::from_name` from the source.  Every `parts[i]` indexing of the
Rust code is modelled by `parts[i]?`, with the out-of-bounds case mapped to
`ParseOutcome.panic`; the `?` early returns on `Option` are the `.err`
branches. -/
def NodeConfig.from_name (name : String) : ParseOutcome :=
  let parts := splitDashDot name.data
  if parts.length < 2 then .err
  else
    match parts[0]? with
    | none => .panic
    | some p0 =>
      match Role.from_str p0 with
      | none => .err
      | some role =>
        if parts.length = 3 then
          match parts[1]? with
          | none => .panic
          | some p1 =>
            match Network.from_str p1 with
            | none => .err
            | some network =>
              match parts[2]? with
              | none => .panic
              | some p2 =>
                match parseU8 (replaceYaml p2) with
                | none => .err
                | some inst => .ok ⟨network, none, role, inst⟩
        else if 4 ≤ parts.length then
          match parts[1]? with
          | none => .panic
          | some p1 =>
            match parts[2]? with
            | none => .panic
            | some p2 =>
              match Chain.from_str (p1 ++ '-' :: p2) with
              | none => .err
              | some chain =>
                match parts[3]? with
                | none => .panic
                | some p3 =>
                  match Network.from_str p3 with
                  | none => .err
                  | some network =>
                    match parts[4]? with
                    | none => .panic
                    | some p4 =>
                      match parseU8 (replaceYaml p4) with
                      | none => .err
                      | some inst => .ok ⟨network, some chain, role, inst⟩
        else .err

/-- The observable behaviour of `main`: the port printed for a name, if any. -/
def namePort (name : String) : Option Nat :=
  match NodeConfig.from_name name with
  | .ok cfg => some cfg.generate_port
  | _ => none

/-- The `network_base` of the spec's port formula, written from the spec's
words: the plain base of the network, unless the resolved chain is a custom
chain of that network, in which case the shadow/custom base for that network
(Polkadot 35000, Kusama 36000, Paseo 38000) is substituted in place of the
plain base. -/
def specNetworkBase (n : Network) (c : Option Chain) : Nat :=
  match c with
  | some ch =>
    if n.is_custom_chain ch then
      match n with
      | .Polkadot => 35000
      | .Kusama => 36000
      | .Paseo => 38000
      | _ => n.base_port
    else n.base_port
  | none => n.base_port

/-- The chains of the system-chain offset table. -/
def systemChain : Chain → Bool
  | .Relay => true
  | .AssetHub => true
  | .BridgeHub => true
  | .Collectives => true
  | .People => true
  | .Coretime => true
  | .Encointer => true
  | _ => false

/-- The four networks producible by `Network::from_str` (the shadow `…Custom`
variants are not user-selectable). -/
def parseableNetwork : Network → Bool
  | .Polkadot => true
  | .Kusama => true
  | .Westend => true
  | .Paseo => true
  | _ => false

/-- The restricted tuple domain on which the port encoding is injective: a
user-selectable network; no chain, a system chain other than `Relay`, or a
custom chain of that very network; and an instance below 10 (so that the tens
digit still determines the role). -/
def legalCfg (cfg : NodeConfig) : Bool :=
  parseableNetwork cfg.network &&
  (match cfg.chain with
    | none => true
    | some ch =>
      (ch ≠ Chain.Relay : Bool) &&
      (cfg.network.is_custom_chain ch || systemChain ch)) &&
  decide (cfg.inst.val < 10)

/-- Role recovered from the tens digit of a port. -/
def roleOfTens : Nat → Option Role
  | 1 => some .Boot
  | 2 => some .Val
  | 3 => some .Rpc
  | _ => none

/-- Chain field recovered from the hundreds digit of a port in a plain
network block (`none` stands for the relay chain). -/
def plainChainOfHundreds : Nat → Option (Option Chain)
  | 0 => some none
  | 1 => some (some .AssetHub)
  | 2 => some (some .BridgeHub)
  | 3 => some (some .Collectives)
  | 4 => some (some .People)
  | 5 => some (some .Coretime)
  | 6 => some (some .Encointer)
  | _ => none

/-- Chain recovered from the hundreds digit in the Polkadot custom block. -/
def polkadotCustomOfHundreds : Nat → Option Chain
  | 0 => some .Moonbeam
  | 1 => some .Hyperbridge
  | 2 => some .Interlay
  | 3 => some .Acala
  | 4 => some .Kilt
  | _ => none

/-- Chain recovered from the hundreds digit in the Kusama custom block. -/
def kusamaCustomOfHundreds : Nat → Option Chain
  | 2 => some .Kintsugi
  | 3 => some .Karura
  | _ => none

/-- Chain recovered from the hundreds digit in the Paseo custom block. -/
def paseoCustomOfHundreds : Nat → Option Chain
  | 1 => some .Gargantua
  | _ => none

/-- Decoder for ports of legal configurations: reads network and
custom-versus-system off the thousands block, the chain off the hundreds
digit, the role off the tens digit and the instance off the units digit. -/
def decodePort (p : Nat) : Option NodeConfig :=
  match roleOfTens (p % 100 / 10) with
  | none => none
  | some r =>
    let h := p % 1000 / 100
    let i : Fin 256 := ⟨p % 10, by omega⟩
    match p / 1000 with
    | 31 => (plainChainOfHundreds h).map fun c => ⟨.Polkadot, c, r, i⟩
    | 32 => (plainChainOfHundreds h).map fun c => ⟨.Kusama, c, r, i⟩
    | 33 => (plainChainOfHundreds h).map fun c => ⟨.Westend, c, r, i⟩
    | 34 => (plainChainOfHundreds h).map fun c => ⟨.Paseo, c, r, i⟩
    | 35 => (polkadotCustomOfHundreds h).map fun c => ⟨.Polkadot, some c, r, i⟩
    | 36 => (kusamaCustomOfHundreds h).map fun c => ⟨.Kusama, some c, r, i⟩
    | 38 => (paseoCustomOfHundreds h).map fun c => ⟨.Paseo, some c, r, i⟩
    | _ => none

/-- Widening of a single-digit instance into the `u8` instance field. -/
def widen (i : Fin 10) : Fin 256 :=
  ⟨i.val, by omega⟩

/-- The base selected by `generate_port` always lies between 31000 and
38000. -/
theorem portBase_bounds : ∀ (n : Network) (c : Option Chain),
    31000 ≤ portBase n c ∧ portBase n c ≤ 38000 := by decide

/-- The chain contribution of `generate_port` is at most 600. -/
theorem chainContribution_le : ∀ (n : Network) (c : Option Chain),
    chainContribution n c ≤ 600 := by decide

/-- Role offsets lie between 10 and 30. -/
theorem role_offset_bounds : ∀ r : Role,
    10 ≤ r.offset ∧ r.offset ≤ 30 := by decide

/-- On every legal configuration with a single-digit instance, decoding the
generated port returns exactly the configuration. -/
theorem decode_generate_port : ∀ (n : Network) (c : Option Chain) (r : Role) (i : Fin 10),
    legalCfg ⟨n, c, r, widen i⟩ = true →
    decodePort (NodeConfig.generate_port ⟨n, c, r, widen i⟩) = some ⟨n, c, r, widen i⟩ := by
  decide

/-- `decode_generate_port` restated over whole configurations. -/
theorem decode_generate_port_cfg (cfg : NodeConfig) (h : legalCfg cfg = true) :
    decodePort cfg.generate_port = some cfg := by
  have h10 : cfg.inst.val < 10 := by
    have h2 := h
    simp only [legalCfg, Bool.and_eq_true, decide_eq_true_eq] at h2
    exact h2.2
  have hcfg : cfg = ⟨cfg.network, cfg.chain, cfg.role, widen ⟨cfg.inst.val, h10⟩⟩ := by
    cases cfg
    simp [widen]
  rw [hcfg] at h ⊢
  exact decode_generate_port cfg.network cfg.chain cfg.role ⟨cfg.inst.val, h10⟩ h

/-- C1: for every `NodeConfig` (network, optional chain, role, instance),
`generate_port` returns `network_base + chain_offset + role_offset +
instance`, where `network_base` is the plain base of the network unless the
resolved chain is a custom chain of that network, in which case the
shadow/custom base for that network (Polkadot 35000, Kusama 36000, Paseo
38000) is substituted in place of the plain base. -/
theorem C1_port_formula_matches_spec (cfg : NodeConfig) :
    cfg.generate_port =
      specNetworkBase cfg.network cfg.chain +
        chainContribution cfg.network cfg.chain +
        cfg.role.offset + cfg.inst.val := by
  have h : ∀ (n : Network) (c : Option Chain), portBase n c = specNetworkBase n c := by
    decide
  unfold NodeConfig.generate_port
  rw [h]

/-- C2: the concrete relay and system-chain scenarios: `rpc-polkadot-01`
yields port 31031, `val-kusama-01` yields port 32021, and
`rpc-asset-hub-polkadot-01` yields port 31131. -/
theorem C2_concrete_relay_and_system_scenarios :
    namePort "rpc-polkadot-01" = some 31031 ∧
    namePort "val-kusama-01" = some 32021 ∧
    namePort "rpc-asset-hub-polkadot-01" = some 31131 :=
  ⟨rfl, rfl, rfl⟩

/-- C3: the claim that the name-to-port computation never panics is wrong:
on the four-token input `rpc-asset-hub-polkadot` the chain and network
resolve, and the code then indexes `parts[4]` on a vector of length 4, which
panics. -/
theorem C3_from_name_panics_on_four_token_name :
    NodeConfig.from_name "rpc-asset-hub-polkadot" = ParseOutcome.panic :=
  rfl

/-- C4: the concrete custom-chain scenarios fail: the parachain branch always
joins the second and third tokens into the chain name, so
`rpc-kilt-polkadot-01` looks up the unknown chain `kilt-polkadot` and
returns no port at all (and likewise with the `.yaml` suffix the repository's
own tests use), instead of the ports 35431 and 36331 the claim and the tests
expect. -/
theorem C4_custom_chain_scenarios_fail_to_parse :
    NodeConfig.from_name "rpc-kilt-polkadot-01" = ParseOutcome.err ∧
    NodeConfig.from_name "rpc-karura-kusama-01" = ParseOutcome.err ∧
    NodeConfig.from_name "rpc-kilt-polkadot-01.yaml" = ParseOutcome.err ∧
    NodeConfig.from_name "rpc-karura-kusama-01.yaml" = ParseOutcome.err :=
  ⟨rfl, rfl, rfl, rfl⟩

/-- C5 counterexample: `rpc-polkadot-00` is not rejected; it parses to the
configuration with instance 0. -/
theorem C5_instance_zero_accepted :
    NodeConfig.from_name "rpc-polkadot-00" =
      ParseOutcome.ok ⟨.Polkadot, none, .Rpc, 0⟩ :=
  rfl

/-- C5 amended: the code performs no instance-range validation at all; any
instance parseable as a `u8` is accepted for every role, and in particular
`rpc-polkadot-00` is accepted and yields port 31030. -/
theorem C5_rpc_polkadot_00_yields_port :
    namePort "rpc-polkadot-00" = some 31030 :=
  rfl

/-- C6 counterexample: there is no alias table; `nexus` does not resolve to
any chain, and `rpc-nexus-polkadot-01` fails to parse instead of yielding the
numeric result of its canonical counterpart. -/
theorem C6_no_alias_normalization :
    Chain.from_str "nexus".data = none ∧
    NodeConfig.from_name "rpc-nexus-polkadot-01" = ParseOutcome.err :=
  ⟨rfl, rfl⟩

/-- C6 amended: `rpc-nexus-polkadot-01` and `rpc-hyperbridge-polkadot-01` do
produce identical output, but only because both fail to parse (the classifier
takes `nexus-polkadot`, respectively `hyperbridge-polkadot`, as the chain
name, and neither is in the table); no alias normalization takes place and
neither name yields a numeric result. -/
theorem C6_alias_and_canonical_identical_output :
    NodeConfig.from_name "rpc-nexus-polkadot-01" =
      NodeConfig.from_name "rpc-hyperbridge-polkadot-01" ∧
    NodeConfig.from_name "rpc-hyperbridge-polkadot-01" = ParseOutcome.err :=
  ⟨rfl, rfl⟩

/-- C7 counterexample: the encoding is not injective over the tuple space the
code accepts: the parseable names `boot-polkadot-25` and `rpc-polkadot-05`
denote distinct tuples with the same port 31035, and the tuples with no chain
and with chain `Relay` differ in exactly one field yet always collide (port
31011 at instance 1). -/
theorem C7_encoding_not_injective :
    NodeConfig.from_name "boot-polkadot-25" =
      ParseOutcome.ok ⟨.Polkadot, none, .Boot, 25⟩ ∧
    NodeConfig.from_name "rpc-polkadot-05" =
      ParseOutcome.ok ⟨.Polkadot, none, .Rpc, 5⟩ ∧
    (⟨.Polkadot, none, .Boot, 25⟩ : NodeConfig) ≠ ⟨.Polkadot, none, .Rpc, 5⟩ ∧
    NodeConfig.generate_port ⟨.Polkadot, none, .Boot, 25⟩ =
      NodeConfig.generate_port ⟨.Polkadot, none, .Rpc, 5⟩ ∧
    (⟨.Polkadot, none, .Boot, 1⟩ : NodeConfig) ≠ ⟨.Polkadot, some .Relay, .Boot, 1⟩ ∧
    NodeConfig.generate_port ⟨.Polkadot, none, .Boot, 1⟩ =
      NodeConfig.generate_port ⟨.Polkadot, some .Relay, .Boot, 1⟩ :=
  ⟨rfl, rfl, by decide, rfl, by decide, rfl⟩

/-- C7 amended: the port encoding is injective on the restricted legal
domain: network one of the four user-selectable ones, chain either absent, a
system chain other than `Relay`, or a custom chain of that very network, and
instance below 10.  On that domain two configurations with the same port are
equal. -/
theorem C7_injective_on_legal_domain (c1 c2 : NodeConfig)
    (h1 : legalCfg c1 = true) (h2 : legalCfg c2 = true)
    (hp : c1.generate_port = c2.generate_port) : c1 = c2 := by
  have d1 := decode_generate_port_cfg c1 h1
  have d2 := decode_generate_port_cfg c2 h2
  rw [hp, d2] at d1
  exact (Option.some.inj d1).symm

/-- C7 witness: the injectivity theorem applied at a concrete legal
configuration. -/
theorem C7_injective_on_legal_domain_witness :
    (⟨.Polkadot, none, .Boot, 1⟩ : NodeConfig) = ⟨.Polkadot, none, .Boot, 1⟩ :=
  C7_injective_on_legal_domain
    ⟨.Polkadot, none, .Boot, 1⟩ ⟨.Polkadot, none, .Boot, 1⟩
    (by decide) (by decide) rfl

/-- C8: the `.yaml` suffix is not stripped before splitting; the name is
split on `.` as well, so `rpc-polkadot-01.yaml` produces four tokens, the
chain lookup `polkadot-01` fails, and the parse errs, while the same name
without the suffix yields port 31031 — contradicting the claim (and the
repository's own `test_relay_chain_nodes`). -/
theorem C8_yaml_suffix_changes_result :
    NodeConfig.from_name "rpc-polkadot-01" =
      ParseOutcome.ok ⟨.Polkadot, none, .Rpc, 1⟩ ∧
    NodeConfig.from_name "rpc-polkadot-01.yaml" = ParseOutcome.err :=
  ⟨rfl, rfl⟩

/-- C9 counterexample: a custom-chain name of one network combined with a
different network is not rejected: `rpc-ka-rura-polkadot-01` resolves the
Kusama chain `karura` under Polkadot and is accepted. -/
theorem C9_foreign_custom_chain_accepted :
    NodeConfig.from_name "rpc-ka-rura-polkadot-01" =
      ParseOutcome.ok ⟨.Polkadot, some .Karura, .Rpc, 1⟩ :=
  rfl

/-- C9 amended: chain resolution is network-independent (`karura` resolves to
`Karura` whatever the network); when the resolved network's custom table does
not contain the chain, `get_offset` silently falls back to offset 0 under the
plain network base, so `rpc-ka-rura-polkadot-01` yields port 31031 instead of
an unknown-identifier error. -/
theorem C9_foreign_custom_chain_offset_zero :
    Chain.from_str "karura".data = some Chain.Karura ∧
    Chain.get_offset .Karura .Polkadot = 0 ∧
    namePort "rpc-ka-rura-polkadot-01" = some 31031 :=
  ⟨rfl, rfl, rfl⟩

/-- C10: for every constructible `NodeConfig` (all seven networks, any
optional chain, any role, any instance 0–255) the wrapping `u16` computation
of `generate_port` equals the exact natural-number sum (no overflow occurs),
and the port lies between 31010 and 38885 inclusive. -/
theorem C10_generate_port_exact_u16_and_bounded (cfg : NodeConfig) :
    cfg.generate_port_u16 = cfg.generate_port ∧
    31010 ≤ cfg.generate_port ∧ cfg.generate_port ≤ 38885 := by
  have h1 := portBase_bounds cfg.network cfg.chain
  have h2 := chainContribution_le cfg.network cfg.chain
  have h3 := role_offset_bounds cfg.role
  have h4 := cfg.inst.isLt
  unfold NodeConfig.generate_port NodeConfig.generate_port_u16
  omega

end Portgen
